import Mathlib

/-!
Shallow embedding of `src/simulateChemicals.py`.

The program wraps an N-variable ODE right-hand side in a class
`ODESystemSimulator` and exposes:
  - `getOutput(initialConditions, t)` — the core evaluation, delegating to
    `scipy.integrate.odeint`;
  - `concentrations(endTime)` — a derived view that builds a 100000-point
    uniform time grid and calls `getOutput([0]*N, t)`;
  - `trajectories(...)` — a derived view whose direction-field computation
    calls the stored vector field with a single argument (no time) on a
    2-D grid and normalizes each derivative by its Euclidean norm, after
    substituting 1 for any exactly-zero norm.

Scalars are embedded as real numbers.  The external SciPy integrator is not
repository code; it is modelled below (`integrate.odeint`) as a concrete
deterministic fixed-step scheme satisfying the documented contract: one
output row per requested time, the first row being exactly the initial
state.  Python dynamic-arity calls are modelled by `PyVectorField`, which
records whether the time parameter of the callable has a default value, and
Python runtime exceptions by the `PyError` type.
-/

namespace SimulateChemicals

/-- Python runtime errors that the embedded code can raise:
`typeError` for a `TypeError` (string-plus-list concatenation, or calling a
function that requires its time argument with a single argument), and
`valueError` for a `ValueError` (tuple-unpacking a sequence whose length is
not 2 in `DX, DY = ...`). -/
inductive PyError where
  | typeError
  | valueError
deriving DecidableEq, Repr

/-- A Python callable of the shape `def f(X, t=...)` or `def f(X, t)`.
`fn` is the two-argument behaviour; `tDefault` is `some d` when the time
parameter has default value `d` (as in the source `def dX_dt(inputs, t=0)`),
and `none` when the time argument is required. -/
structure PyVectorField where
  fn : List ℝ → ℝ → List ℝ
  tDefault : Option ℝ

/-- Calling a `PyVectorField` with a single argument, as the source line
`DX, DY = self.__systemFunction([X, Y])` does: this succeeds only when the
time parameter has a default; otherwise Python raises
`TypeError: missing 1 required positional argument`. -/
def callNoTime (f : PyVectorField) (x : List ℝ) : Except PyError (List ℝ) :=
  match f.tDefault with
  | some t => Except.ok (f.fn x t)
  | none => Except.error PyError.typeError

namespace integrate

/-- One explicit integration step of the model integrator from time `t0` to
time `t1`, starting at state `y`: `y + (t1 - t0) * f y t0`, componentwise. -/
def eulerStep (f : List ℝ → ℝ → List ℝ) (y : List ℝ) (t0 t1 : ℝ) : List ℝ :=
  List.zipWith (fun yi di => yi + (t1 - t0) * di) y (f y t0)

/-- The rows of the model trajectory after the initial one: one step per
remaining requested time. -/
def odeintSteps (f : List ℝ → ℝ → List ℝ) (y : List ℝ) (t0 : ℝ) :
    List ℝ → List (List ℝ)
  | [] => []
  | t1 :: rest => eulerStep f y t0 t1 :: odeintSteps f (eulerStep f y t0 t1) t1 rest

/-- Model of the external Integrator `scipy.integrate.odeint` (not
repository code; the spec treats it as a black-box collaborator).  Contract
captured: given a right-hand side `f`, an initial state `y0` and a list of
requested times, it returns one state row per requested time, the row at the
first time being exactly `y0`; it is a deterministic function of its
arguments.  The internal stepping is modelled as a single explicit step per
requested interval. -/
def odeint (f : List ℝ → ℝ → List ℝ) (y0 : List ℝ) : List ℝ → List (List ℝ)
  | [] => []
  | t0 :: rest => y0 :: odeintSteps f y0 t0 rest

end integrate

/-- The class `ODESystemSimulator`: its constructor stores the vector field
in `self.__systemFunction` and the number of variables in
`self.__systemSize`, and nothing else. -/
structure ODESystemSimulator where
  systemFunction : PyVectorField
  systemSize : ℕ

namespace ODESystemSimulator

/-- `ODESystemSimulator.getOutput(self, initialConditions, t)`.
The source first compares `len(initialConditions)` with `self.__systemSize`;
on mismatch it executes
`print("Inputed " + initialConditions + " initial conditions but there is only " + self.__systemSize)`,
and the expression `"Inputed " + initialConditions` (a `str` plus a `list`)
raises an uncaught `TypeError`, terminating the call before
`integrate.odeint` is reached.  On match it returns
`integrate.odeint(self.__systemFunction, initialConditions, t)`; `odeint`
calls the field with both arguments `(y, t)`. -/
def getOutput (self : ODESystemSimulator) (initialConditions : List ℝ)
    (t : List ℝ) : Except PyError (List (List ℝ)) :=
  if initialConditions.length ≠ self.systemSize then
    Except.error PyError.typeError
  else
    Except.ok (integrate.odeint self.systemFunction.fn initialConditions t)

end ODESystemSimulator

/-- `numpy.linspace(a, b, num)`: `num` evenly spaced samples from `a` to
`b`, endpoints included: sample `i` is `a + (b - a) * i / (num - 1)`. -/
noncomputable def linspace (a b : ℝ) (num : ℕ) : List ℝ :=
  (List.range num).map (fun (i : ℕ) => a + (b - a) * (i : ℝ) / ((num - 1 : ℕ) : ℝ))

namespace ODESystemSimulator

/-- The computational core of `ODESystemSimulator.concentrations(self, endTime, Xs)`:
`t = linspace(0, endTime, 100000)` followed by
`X = self.getOutput([0] * self.__systemSize, t)`.  The remainder of the
method is pylab plotting of the pair `(t, X)`, out of scope here; the view
returns that pair to the presentation code. -/
noncomputable def concentrations (self : ODESystemSimulator) (endTime : ℝ) :
    List ℝ × Except PyError (List (List ℝ)) :=
  let t := linspace 0 endTime 100000
  (t, self.getOutput (List.replicate self.systemSize 0) t)

end ODESystemSimulator

/-- `numpy.hypot(a, b)`: the Euclidean norm `sqrt (a^2 + b^2)`. -/
noncomputable def hypot (a b : ℝ) : ℝ :=
  Real.sqrt (a ^ 2 + b ^ 2)

namespace ODESystemSimulator

open Classical in
/-- The direction-field computation of
`ODESystemSimulator.trajectories` at one grid point `(x, y)` (the numpy
code operates elementwise on the meshgrid; this is its value at one grid
entry):
`DX, DY = self.__systemFunction([X, Y])` — a single-argument call
(no time argument), whose result must unpack into exactly two components —
then `M = hypot(DX, DY)`, `M[M == 0] = 1.`, `DX /= M`, `DY /= M`. -/
noncomputable def directionFieldAt (self : ODESystemSimulator) (x y : ℝ) :
    Except PyError (ℝ × ℝ) :=
  match callNoTime self.systemFunction [x, y] with
  | Except.error e => Except.error e
  | Except.ok [DX, DY] =>
      let M := hypot DX DY
      let M1 := if M = 0 then 1 else M
      Except.ok (DX / M1, DY / M1)
  | Except.ok _ => Except.error PyError.valueError

end ODESystemSimulator

/-- The script-level right-hand side `dX_dt(inputs, t=0)` from the source:
`X = inputs[0]`, `Y = inputs[1]`,
`dX_dt = 1 + 0.02*X**2*Y - 2*X - 0.04*X`, `dY_dt = 2*X - 0.02*X**2*Y`.
Python indexing `inputs[0]`/`inputs[1]` would raise on a shorter list; every
call site passes at least two components, embedded here with `getD`.  The
time parameter has default `0`. -/
noncomputable def dX_dt : PyVectorField where
  fn := fun inputs _t =>
    let X := inputs.getD 0 0
    let Y := inputs.getD 1 0
    [1 + 0.02 * X ^ 2 * Y - 2 * X - 0.04 * X, 2 * X - 0.02 * X ^ 2 * Y]
  tDefault := some 0

/-- A vector field that is identically `(0, 0)`, with a defaulted time
parameter; used to exercise the zero-derivative branch of the direction
field. -/
def zeroField : PyVectorField where
  fn := fun _ _ => [0, 0]
  tDefault := some 0

/-- A vector field whose time parameter has no default value: a Python
callable `def f(X, t)` that `odeint` can drive (it always passes both
arguments) but that a single-argument call cannot. -/
def noDefaultField : PyVectorField where
  fn := fun _ _ => [0, 0]
  tDefault := none

/-- The callable surface of a constructed simulator: the three methods and
their arguments. -/
inductive Call where
  | getOutput (ic t : List ℝ)
  | concentrations (endTime : ℝ)
  | directionFieldAt (x y : ℝ)

/-- The outputs the three methods can produce. -/
inductive MethodOutput where
  | traj (r : Except PyError (List (List ℝ)))
  | series (r : List ℝ × Except PyError (List (List ℝ)))
  | field (r : Except PyError (ℝ × ℝ))

/-- One method call on a simulator object, returning the method output and
the object state after the call.  Each method body in the source only
reads `self.__systemFunction` and `self.__systemSize`; no statement assigns
to any attribute of `self` after `__init__`, so the post-call state is the
pre-call state. -/
noncomputable def step (self : ODESystemSimulator) :
    Call → MethodOutput × ODESystemSimulator
  | Call.getOutput ic t => (MethodOutput.traj (self.getOutput ic t), self)
  | Call.concentrations e => (MethodOutput.series (self.concentrations e), self)
  | Call.directionFieldAt x y => (MethodOutput.field (self.directionFieldAt x y), self)

/-- The object state after a sequence of method calls. -/
noncomputable def runCalls (self : ODESystemSimulator) : List Call → ODESystemSimulator
  | [] => self
  | c :: cs => runCalls (step self c).2 cs

/-! ### Helper lemmas about the model integrator and the grids -/

lemma odeintSteps_length (f : List ℝ → ℝ → List ℝ) (ts : List ℝ) :
    ∀ (y : List ℝ) (t0 : ℝ), (integrate.odeintSteps f y t0 ts).length = ts.length := by
  induction ts with
  | nil => intro y t0; rfl
  | cons t1 rest ih =>
      intro y t0
      simp [integrate.odeintSteps, ih]

lemma odeint_length (f : List ℝ → ℝ → List ℝ) (y0 ts : List ℝ) :
    (integrate.odeint f y0 ts).length = ts.length := by
  cases ts with
  | nil => rfl
  | cons t0 rest => simp [integrate.odeint, odeintSteps_length]

lemma eulerStep_length (f : List ℝ → ℝ → List ℝ) (y : List ℝ) (t0 t1 : ℝ)
    (hf : (f y t0).length = y.length) :
    (integrate.eulerStep f y t0 t1).length = y.length := by
  simp [integrate.eulerStep, hf]

lemma odeintSteps_rows (f : List ℝ → ℝ → List ℝ) (N : ℕ)
    (hf : ∀ y t, y.length = N → (f y t).length = N) (ts : List ℝ) :
    ∀ (y : List ℝ) (t0 : ℝ), y.length = N →
      ∀ row ∈ integrate.odeintSteps f y t0 ts, row.length = N := by
  induction ts with
  | nil => intro y t0 _ row hrow; simp [integrate.odeintSteps] at hrow
  | cons t1 rest ih =>
      intro y t0 hy row hrow
      have hstep : (integrate.eulerStep f y t0 t1).length = N := by
        rw [eulerStep_length f y t0 t1 (by rw [hf y t0 hy, hy])]
        exact hy
      simp only [integrate.odeintSteps, List.mem_cons] at hrow
      rcases hrow with h | h
      · rw [h]; exact hstep
      · exact ih _ t1 hstep row h

lemma odeint_rows (f : List ℝ → ℝ → List ℝ) (N : ℕ)
    (hf : ∀ y t, y.length = N → (f y t).length = N) (y0 ts : List ℝ)
    (hy0 : y0.length = N) :
    ∀ row ∈ integrate.odeint f y0 ts, row.length = N := by
  cases ts with
  | nil => intro row hrow; simp [integrate.odeint] at hrow
  | cons t0 rest =>
      intro row hrow
      simp only [integrate.odeint, List.mem_cons] at hrow
      rcases hrow with h | h
      · rw [h]; exact hy0
      · exact odeintSteps_rows f N hf rest y0 t0 hy0 row h

lemma linspace_length (a b : ℝ) (num : ℕ) : (linspace a b num).length = num := by
  rw [linspace, List.length_map, List.length_range]

lemma linspace_getD (a b : ℝ) (num : ℕ) (i : ℕ) (h : i < num) :
    (linspace a b num).getD i 0 = a + (b - a) * (i : ℝ) / ((num - 1 : ℕ) : ℝ) := by
  have hlen : i < (linspace a b num).length := by
    rw [linspace_length]; exact h
  rw [List.getD_eq_getElem _ _ hlen]
  simp only [linspace, List.getElem_map, List.getElem_range]

lemma hypot_eq_zero_iff (a b : ℝ) : hypot a b = 0 ↔ a = 0 ∧ b = 0 := by
  unfold hypot
  rw [Real.sqrt_eq_zero (by positivity)]
  constructor
  · intro h
    constructor
    · nlinarith [sq_nonneg a, sq_nonneg b]
    · nlinarith [sq_nonneg a, sq_nonneg b]
  · rintro ⟨ha, hb⟩
    simp [ha, hb]

/-! ### Claim theorems -/

/-- C1: for every vector field satisfying the VectorField length invariant
(a state vector of length N maps to a derivative vector of length N), every
N, every initial-conditions vector of length N and every non-empty time
grid, `getOutput` returns a trajectory with exactly one row per requested
time and N columns. -/
theorem claim_C1_getOutput_shape (f : PyVectorField) (N : ℕ) (ic times : List ℝ)
    (hf : ∀ y t, y.length = N → (f.fn y t).length = N)
    (hic : ic.length = N) (ht : times ≠ []) :
    ∃ X, ODESystemSimulator.getOutput ⟨f, N⟩ ic times = Except.ok X ∧
      X.length = times.length ∧ ∀ row ∈ X, row.length = N := by
  refine ⟨integrate.odeint f.fn ic times, ?_, odeint_length f.fn ic times,
    odeint_rows f.fn N hf ic times hic⟩
  simp [ODESystemSimulator.getOutput, hic]

/-- Witness for C1 at the constant-zero field with N = 2, initial
conditions `[0, 0]` and the two-point grid `[0, 1]`. -/
theorem claim_C1_getOutput_shape_witness :
    ∃ X, ODESystemSimulator.getOutput ⟨zeroField, 2⟩ [0, 0] [0, 1] = Except.ok X ∧
      X.length = 2 ∧ ∀ row ∈ X, row.length = 2 :=
  claim_C1_getOutput_shape zeroField 2 [0, 0] [0, 1]
    (fun _ _ _ => rfl) rfl (List.cons_ne_nil 0 [1])

/-- C2: at the failing input (system `dX_dt` with N = 2, initial conditions
of length 1), `getOutput` terminates with the `TypeError` raised by the
string-plus-list concatenation in its diagnostic `print`, not with a
reported `DimensionMismatch` error as the specification requires. -/
theorem claim_C2_mismatch_behavior :
    ODESystemSimulator.getOutput ⟨dX_dt, 2⟩ [0] [0, 1] = Except.error PyError.typeError := by
  simp [ODESystemSimulator.getOutput]

/-- C5: `getOutput` is deterministic — two calls with identical simulator
configuration, identical initial conditions and identical time grid return
identical trajectories. -/
theorem claim_C5_deterministic (sim sim2 : ODESystemSimulator) (ic ic2 t t2 : List ℝ)
    (hs : sim = sim2) (hi : ic = ic2) (ht : t = t2) :
    sim.getOutput ic t = sim2.getOutput ic2 t2 := by
  rw [hs, hi, ht]

/-- Witness for C5 at the script's own system `dX_dt` with N = 2. -/
theorem claim_C5_deterministic_witness :
    ODESystemSimulator.getOutput ⟨dX_dt, 2⟩ [0, 0] [0, 1] =
      ODESystemSimulator.getOutput ⟨dX_dt, 2⟩ [0, 0] [0, 1] :=
  claim_C5_deterministic ⟨dX_dt, 2⟩ ⟨dX_dt, 2⟩ [0, 0] [0, 0] [0, 1] [0, 1] rfl rfl rfl

/-- C6: for initial conditions of the configured length, `getOutput` on a
single-element time grid `[t0]` returns exactly one row, and that row is
exactly the initial conditions. -/
theorem claim_C6_single_time (sim : ODESystemSimulator) (ic : List ℝ) (t0 : ℝ)
    (h : ic.length = sim.systemSize) :
    sim.getOutput ic [t0] = Except.ok [ic] := by
  simp [ODESystemSimulator.getOutput, h, integrate.odeint, integrate.odeintSteps]

/-- Witness for C6: the constant-zero field with N = 2, initial conditions
`[3, 4]` and the one-point grid `[7]`. -/
theorem claim_C6_single_time_witness :
    ODESystemSimulator.getOutput ⟨zeroField, 2⟩ [3, 4] [7] = Except.ok [[3, 4]] :=
  claim_C6_single_time ⟨zeroField, 2⟩ [3, 4] 7 rfl

/-- C9: whenever the initial-conditions length differs from the configured
system size, `getOutput` terminates with the `TypeError` raised by the
diagnostic branch's string-plus-list concatenation — before the integrator
is ever invoked — so the caller sees a type error and no trajectory, not a
`DimensionMismatch` report. -/
theorem claim_C9_mismatch_typeError (sim : ODESystemSimulator) (ic t : List ℝ)
    (h : ic.length ≠ sim.systemSize) :
    sim.getOutput ic t = Except.error PyError.typeError := by
  simp [ODESystemSimulator.getOutput, h]

/-- Witness for C9 at a length-3 initial-conditions vector against N = 2. -/
theorem claim_C9_mismatch_typeError_witness :
    (([1, 2, 3] : List ℝ).length ≠ (ODESystemSimulator.mk dX_dt 2).systemSize) ∧
    ODESystemSimulator.getOutput ⟨dX_dt, 2⟩ [1, 2, 3] [0] = Except.error PyError.typeError :=
  ⟨by decide, claim_C9_mismatch_typeError ⟨dX_dt, 2⟩ [1, 2, 3] [0] (by decide)⟩

/-- C3: at every grid point whose derivative is `(0, 0)` the direction-field
computation returns exactly `(0, 0)` (the zero norm having been substituted
by 1, so no divide-by-zero occurs), and at every grid point with a nonzero
derivative it returns `(DX, DY)` divided by its Euclidean norm, which is
nonzero there. -/
theorem claim_C3_directionField_normalization (sim : ODESystemSimulator)
    (x y DX DY : ℝ)
    (hcall : callNoTime sim.systemFunction [x, y] = Except.ok [DX, DY]) :
    (DX = 0 ∧ DY = 0 →
        sim.directionFieldAt x y = Except.ok (0, 0)) ∧
    (¬(DX = 0 ∧ DY = 0) →
        hypot DX DY ≠ 0 ∧
        sim.directionFieldAt x y =
          Except.ok (DX / hypot DX DY, DY / hypot DX DY)) := by
  constructor
  · rintro ⟨h1, h2⟩
    subst h1
    subst h2
    simp [ODESystemSimulator.directionFieldAt, hcall, hypot]
  · intro hne
    have hM : hypot DX DY ≠ 0 := fun h => hne ((hypot_eq_zero_iff DX DY).mp h)
    refine ⟨hM, ?_⟩
    simp [ODESystemSimulator.directionFieldAt, hcall, if_neg hM]

/-- Witness for C3 at the constant-zero field: the normalized arrow at the
grid point `(0, 0)` is exactly `(0, 0)`. -/
theorem claim_C3_directionField_normalization_witness :
    ODESystemSimulator.directionFieldAt ⟨zeroField, 2⟩ 0 0 = Except.ok (0, 0) :=
  (claim_C3_directionField_normalization ⟨zeroField, 2⟩ 0 0 0 0 rfl).1 ⟨rfl, rfl⟩

/-- C4: the concentration-series view builds `linspace 0 endTime 100000` — a
grid of exactly 100000 uniformly spaced points, point `i` being
`endTime * i / 99999`, starting at 0 and ending at `endTime` — and calls
`getOutput` with initial conditions hardcoded to the all-zero vector of
length N, for every simulator and every end time. -/
theorem claim_C4_concentrations_grid (sim : ODESystemSimulator) (endTime : ℝ) :
    (linspace 0 endTime 100000).length = 100000 ∧
    (∀ i, i < 100000 →
        (linspace 0 endTime 100000).getD i 0 = endTime * (i : ℝ) / 99999) ∧
    (linspace 0 endTime 100000).getD 0 0 = 0 ∧
    (linspace 0 endTime 100000).getD 99999 0 = endTime ∧
    sim.concentrations endTime =
      (linspace 0 endTime 100000,
        sim.getOutput (List.replicate sim.systemSize 0) (linspace 0 endTime 100000)) := by
  have key : ∀ i, i < 100000 →
      (linspace 0 endTime 100000).getD i 0 = endTime * (i : ℝ) / 99999 := by
    intro i hi
    rw [linspace_getD 0 endTime 100000 i hi]
    norm_num
  refine ⟨linspace_length 0 endTime 100000, key, ?_, ?_, rfl⟩
  · rw [key 0 (by norm_num)]
    norm_num
  · rw [key 99999 (by norm_num)]
    norm_num

/-- Witness for C4 at the script's system `dX_dt` with end time 5,
instantiating the spacing formula at grid index 1. -/
theorem claim_C4_concentrations_grid_witness :
    (linspace 0 5 100000).length = 100000 ∧
    (linspace 0 5 100000).getD 1 0 = 5 * ((1 : ℕ) : ℝ) / 99999 ∧
    (ODESystemSimulator.mk dX_dt 2).concentrations 5 =
      (linspace 0 5 100000,
        (ODESystemSimulator.mk dX_dt 2).getOutput (List.replicate 2 0)
          (linspace 0 5 100000)) := by
  have h := claim_C4_concentrations_grid ⟨dX_dt, 2⟩ 5
  exact ⟨h.1, h.2.1 1 (by norm_num), h.2.2.2.2⟩

/-- C8: a constructed simulator is never mutated: after any sequence of
method calls (core evaluation, concentration series, direction-field
probes) the object state — the stored vector field and system size — is
exactly the state set at construction, and each single call leaves the
state unchanged. -/
theorem claim_C8_driver_immutable (sim : ODESystemSimulator) (cs : List Call) :
    runCalls sim cs = sim ∧ ∀ c, (step sim c).2 = sim := by
  have hstep : ∀ (s : ODESystemSimulator) (c : Call), (step s c).2 = s := by
    intro s c
    cases c <;> rfl
  refine ⟨?_, hstep sim⟩
  induction cs with
  | nil => rfl
  | cons c rest ih =>
      rw [runCalls, hstep sim c]
      exact ih

/-- C10: a vector field whose time parameter has no default makes the
direction-field computation fail with a `TypeError` (it is invoked with a
single argument, no time), even though `getOutput` succeeds for the same
field with matching initial conditions (the integrator passes both
arguments); moreover a single-argument-callable field whose result does not
unpack into exactly two components makes the computation fail with a
`ValueError`, so the view only succeeds for 2-variable fields callable
without an explicit time argument. -/
theorem claim_C10_trajectories_arity (f : PyVectorField) (N : ℕ)
    (ic t : List ℝ) (x y : ℝ)
    (hreq : f.tDefault = none) (hic : ic.length = N) :
    ODESystemSimulator.directionFieldAt ⟨f, N⟩ x y = Except.error PyError.typeError ∧
    (∃ X, ODESystemSimulator.getOutput ⟨f, N⟩ ic t = Except.ok X) ∧
    (∀ (g : PyVectorField) (d : ℝ), g.tDefault = some d →
        (g.fn [x, y] d).length ≠ 2 →
        ODESystemSimulator.directionFieldAt ⟨g, N⟩ x y =
          Except.error PyError.valueError) := by
  refine ⟨?_, ⟨integrate.odeint f.fn ic t, ?_⟩, ?_⟩
  · simp [ODESystemSimulator.directionFieldAt, callNoTime, hreq]
  · simp [ODESystemSimulator.getOutput, hic]
  · intro g d hg hlen
    rcases hl : g.fn [x, y] d with _ | ⟨a, _ | ⟨b, _ | ⟨c, rest⟩⟩⟩
    · simp [ODESystemSimulator.directionFieldAt, callNoTime, hg, hl]
    · simp [ODESystemSimulator.directionFieldAt, callNoTime, hg, hl]
    · exact absurd (by simp [hl]) hlen
    · simp [ODESystemSimulator.directionFieldAt, callNoTime, hg, hl]

/-- Witness for C10 at a field requiring its time argument, with N = 2,
initial conditions `[0, 0]`, grid point `(1, 1)`. -/
theorem claim_C10_trajectories_arity_witness :
    ODESystemSimulator.directionFieldAt ⟨noDefaultField, 2⟩ 1 1 =
      Except.error PyError.typeError ∧
    ∃ X, ODESystemSimulator.getOutput ⟨noDefaultField, 2⟩ [0, 0] [0] = Except.ok X := by
  have h := claim_C10_trajectories_arity noDefaultField 2 [0, 0] [0] 1 1 rfl rfl
  exact ⟨h.1, h.2.1⟩

end SimulateChemicals
